import Mathlib

/-!
Verification of the captive-portal bootstrap core of esp-bttf-clock-rs.

Shallow embedding of the bootstrap core of the firmware:
* the NVS credential store wrappers (`src/nvs/mod.rs`, `src/nvs/wifi.rs`),
  with the postcard byte encoding of `WifiCredentials`;
* the DNS hijack responder (`src/server/dns_responder.rs`);
* the `/set_config` handler of the captive portal (`src/server/captive_portal.rs`);
* the station connect-or-restart routine (`src/wifi/station.rs`) and the boot
  mode decision of `main.rs`.

Bytes are modelled as `Nat` (values below 256 in every run of the real code);
fallible operations return `Option`/`Except`, with `none` standing for a Rust
panic.  External collaborators (the ESP NVS driver, the UDP socket, the HTTP
connection, `serde_json`) appear as explicit parameters describing the one
interaction the embedded code has with them.
-/

namespace EspClock

/-! ## Wi-Fi credentials (src/wifi/mod.rs)

Struct `WifiCredentials { ssid: String, password: String }`.  Strings are modelled by
their UTF-8 byte lists, which is what every operation below consumes. -/

structure WifiCredentials where
  ssid : List Nat
  password : List Nat
deriving DecidableEq, Repr

/-! ## Postcard encoding

Functions `postcard::to_vec` / `postcard::from_bytes` on `WifiCredentials` produce the
fields in declaration order, each string as a LEB128 varint length followed by
the raw bytes. -/

/-- LEB128 unsigned varint encoding used by postcard for lengths. -/
def encodeVarint (n : Nat) : List Nat :=
  if h : n < 128 then [n]
  else (n % 128 + 128) :: encodeVarint (n / 128)
termination_by n
decreasing_by exact Nat.div_lt_self (by omega) (by omega)

/-- LEB128 varint decoding: returns the value and the remaining bytes. -/
def decodeVarint : List Nat → Option (Nat × List Nat)
  | [] => none
  | b :: rest =>
    if b < 128 then some (b, rest)
    else
      match decodeVarint rest with
      | some (m, r) => some (m * 128 + (b - 128), r)
      | none => none

/-- Split off exactly `n` leading bytes, failing when too few are available. -/
def splitBytes (n : Nat) (l : List Nat) : Option (List Nat × List Nat) :=
  if n ≤ l.length then some (l.take n, l.drop n) else none

/-- Postcard encoding of `WifiCredentials`: ssid then password, each
length-prefixed. -/
def encodeCred (c : WifiCredentials) : List Nat :=
  (encodeVarint c.ssid.length ++ c.ssid) ++
    (encodeVarint c.password.length ++ c.password)

/-- Postcard decoding of `WifiCredentials`, returning the remaining bytes. -/
def decodeCred (l : List Nat) : Option (WifiCredentials × List Nat) :=
  match decodeVarint l with
  | none => none
  | some (n1, r1) =>
    match splitBytes n1 r1 with
    | none => none
    | some (s, r2) =>
      match decodeVarint r2 with
      | none => none
      | some (n2, r3) =>
        match splitBytes n2 r3 with
        | none => none
        | some (p, _r4) => some (⟨s, p⟩, _r4)

/-- Model of `postcard::from_bytes::<WifiCredentials>`: decodes a value from the front
of the buffer, ignoring any trailing bytes. -/
def from_bytes (l : List Nat) : Option WifiCredentials :=
  (decodeCred l).map (·.1)

/-- Model of `postcard::to_vec::<WifiCredentials, 100>`: the encoding, failing when it
does not fit the 100-byte vector. -/
def to_vec100 (c : WifiCredentials) : Option (List Nat) :=
  if (encodeCred c).length ≤ 100 then some (encodeCred c) else none

theorem decodeVarint_encodeVarint (n : Nat) (rest : List Nat) :
    decodeVarint (encodeVarint n ++ rest) = some (n, rest) := by
  induction n using Nat.strong_induction_on with
  | _ n ih =>
    rw [encodeVarint]
    by_cases h : n < 128
    · simp [h, decodeVarint]
    · have hdiv : n / 128 < n := Nat.div_lt_self (by omega) (by omega)
      simp only [h, dite_false, List.cons_append, decodeVarint]
      rw [if_neg (by omega), ih (n / 128) hdiv]
      have h2 : n / 128 * 128 + (n % 128 + 128 - 128) = n := by omega
      show some (n / 128 * 128 + (n % 128 + 128 - 128), rest) = some (n, rest)
      rw [h2]

theorem splitBytes_append (s rest : List Nat) :
    splitBytes s.length (s ++ rest) = some (s, rest) := by
  simp [splitBytes, List.take_left, List.drop_left]

theorem decodeCred_encodeCred (c : WifiCredentials) (rest : List Nat) :
    decodeCred (encodeCred c ++ rest) = some (c, rest) := by
  obtain ⟨s, p⟩ := c
  simp only [decodeCred, encodeCred, List.append_assoc,
    decodeVarint_encodeVarint, splitBytes_append]

/-! ## The NVS store

The persistent medium behind `EspNvs<NvsDefault>`, modelled as an association
list from keys to raw byte blobs.  `esp_remove` carries a `driverOk` flag: the
driver may fail for reasons outside the store's contents, and the wrappers in
`src/nvs/mod.rs` swallow such failures after logging. -/

abbrev Store := List (String × List Nat)

/-- Drop every entry stored under key `k`. -/
def removeKey (s : Store) (k : String) : Store :=
  s.filter (fun e => e.1 != k)

/-- The blob stored under `k`, if any. -/
def getRaw (s : Store) (k : String) : Option (List Nat) :=
  (s.find? (fun e => e.1 == k)).map (·.2)

/-- Store blob `v` under `k`, replacing any previous entry. -/
def setRaw (s : Store) (k : String) (v : List Nat) : Store :=
  (k, v) :: removeKey s k

/-- Model of `EspNvs::get_raw` with a caller-supplied buffer of `bufLen` bytes: errors
when the stored blob does not fit the buffer. -/
def get_raw_buf (s : Store) (k : String) (bufLen : Nat) :
    Except String (Option (List Nat)) :=
  match getRaw s k with
  | none => .ok none
  | some v => if v.length ≤ bufLen then .ok (some v) else .error "invalid length"

/-- Model of `EspNvs::remove`: reports whether an entry existed; errors only on driver
failure. -/
def esp_remove (driverOk : Bool) (s : Store) (k : String) :
    Except String (Bool × Store) :=
  if driverOk then .ok ((getRaw s k).isSome, removeKey s k) else .error "nvs"

/-- Model of `nvs::wifi::save_wifi_credentials` (src/nvs/mod.rs:29-40): serializes the
pair with `to_vec::<WifiCredentials, 100>` and unwraps (`none` = panic); the
`set_raw` result is matched and only logged, so a failed write (`writeOk =
false`) leaves the store unchanged but still returns normally. -/
def save_wifi_credentials (writeOk : Bool) (s : Store)
    (ssid password : List Nat) : Option Store :=
  match to_vec100 ⟨ssid, password⟩ with
  | none => none
  | some bytes => some (if writeOk then setRaw s "net_info" bytes else s)

/-- Model of `nvs::wifi::get_maybe_wifi_credentials` (src/nvs/mod.rs:73-89): reads the
`"net_info"` blob into a 100-byte buffer and deserializes it. -/
def get_maybe_wifi_credentials (s : Store) :
    Except String (Option WifiCredentials) :=
  match get_raw_buf s "net_info" 100 with
  | .error e => .error e
  | .ok none => .ok none
  | .ok (some bytes) =>
    match from_bytes bytes with
    | some c => .ok (some c)
    | none => .error "deserialize"

/-- Model of `nvs::wifi::delete_wifi_credentials` (src/nvs/mod.rs:109-116, and the
`AppStorage` variant src/nvs/wifi.rs:114-123): removes `"net_info"`, matching
both arms of the driver result and only logging, so the caller always gets a
success value. -/
def delete_wifi_credentials (driverOk : Bool) (s : Store) :
    Except String Unit × Store :=
  match esp_remove driverOk s "net_info" with
  | .ok (_, s2) => (.ok (), s2)
  | .error _ => (.ok (), s)

theorem getRaw_setRaw (s : Store) (k : String) (v : List Nat) :
    getRaw (setRaw s k v) k = some v := by
  simp [getRaw, setRaw, List.find?]

theorem getRaw_removeKey (s : Store) (k : String) :
    getRaw (removeKey s k) k = none := by
  induction s with
  | nil => rfl
  | cons e t ih =>
    unfold removeKey at ih ⊢
    by_cases h : e.1 = k
    · rw [List.filter_cons_of_neg (by simp [h])]
      exact ih
    · rw [List.filter_cons_of_pos (by simp [h])]
      unfold getRaw at ih ⊢
      rw [List.find?_cons_of_neg _ (by simp [h])]
      exact ih

theorem removeKey_removeKey (s : Store) (k : String) :
    removeKey (removeKey s k) k = removeKey s k := by
  simp [removeKey, List.filter_filter]

/-! ## DNS hijack responder (src/server/dns_responder.rs)

Routine `handle_requests` performs one receive-and-reply cycle on the UDP socket.  The
socket interaction is abstracted into the outcome of `recv_from` (a datagram
or an I/O error) and the outcome of the subsequent `send_to`, both supplied as
parameters.  The 128-byte stack buffer is modelled as a byte function indexed
by position; `recv_from` copies at most 128 bytes of the incoming datagram
into it, the rest stays zero. -/

/-- Model of `std::io::ErrorKind`, distinguishing only `TimedOut` as the code does. -/
inductive IoKind where
  | timedOut
  | other (code : Nat)
deriving DecidableEq, Repr

/-- Outcome of `UdpSocket::recv_from`: a datagram with the sender address, or
an I/O error. -/
inductive RecvResult where
  | ok (data : List Nat) (clientAddr : Nat)
  | err (kind : IoKind)
deriving DecidableEq, Repr

/-- A datagram handed to `UdpSocket::send_to`: `len` payload bytes read off
the buffer function `byte`, sent to address `dest`. -/
structure Datagram where
  len : Nat
  byte : Nat → Nat
  dest : Nat

/-- The 128-byte receive buffer right after `recv_from`: the first
`min (data.length) 128` positions hold the datagram, the rest are the zeros
the buffer was initialized with. -/
def recvBuffer (data : List Nat) (i : Nat) : Nat :=
  (data.take 128).getD i 0

/-- The buffer after the three header writes of the reply path:
`buffer[2] |= 0x80`, `buffer[3] |= 0x80`, `buffer[7] = 0x01`. -/
def dnsHeaderPatched (data : List Nat) (i : Nat) : Nat :=
  if i = 7 then 1
  else if i = 2 then recvBuffer data 2 ||| 128
  else if i = 3 then recvBuffer data 3 ||| 128
  else recvBuffer data i

/-- The buffer after `buffer[length..length+footer.length]` is overwritten
with the response footer (`length` is the reported receive length). -/
def dnsReplyByte (footer data : List Nat) (i : Nat) : Nat :=
  if (data.take 128).length ≤ i ∧ i < (data.take 128).length + footer.length
  then footer.getD (i - (data.take 128).length) 0
  else dnsHeaderPatched data i

/-- Semantics of `buffer[start..].copy_from_slice(src)` on a list. -/
def writeSlice (buf : List Nat) (start : Nat) (src : List Nat) : List Nat :=
  buf.take start ++ src ++ buf.drop (start + src.length)

/-- The precomputed `response_footer` of `DnsResponder::init`
(src/server/dns_responder.rs:40-44): a 16-byte template whose positions 12-15
are overwritten with the octets of the bound IP address. -/
def response_footer (o0 o1 o2 o3 : Nat) : List Nat :=
  writeSlice
    [0xc0, 0x0c, 0x00, 0x01, 0x00, 0x01, 0x00, 0x00,
     0x00, 0x0a, 0x00, 0x04, 0x00, 0x00, 0x00, 0x00]
    12 [o0, o1, o2, o3]

theorem response_footer_eq (o0 o1 o2 o3 : Nat) :
    response_footer o0 o1 o2 o3 =
      [0xc0, 0x0c, 0x00, 0x01, 0x00, 0x01, 0x00, 0x00,
       0x00, 0x0a, 0x00, 0x04, o0, o1, o2, o3] := rfl

/-- Model of `DnsResponder::handle_requests` (src/server/dns_responder.rs:69-91).

Returns `none` when the reply path would panic (the footer copy falling
outside the 128-byte buffer); otherwise the `Result` value of the function
together with the list of datagrams handed to `send_to`.  A datagram appears
in the list whenever `send_to` was invoked, also when the send itself failed
(in which case the error is propagated via `?`). -/
def handle_requests (footer : List Nat) (recv : RecvResult)
    (sendRes : Except IoKind Unit) :
    Option (Except IoKind Unit × List Datagram) :=
  match recv with
  | .err .timedOut => some (.ok (), [])
  | .err k => some (.error k, [])
  | .ok data addr =>
    if 100 < (data.take 128).length then some (.ok (), [])
    else if (data.take 128).length + footer.length ≤ 128 then
      some
        (match sendRes with
          | .ok _ => .ok ()
          | .error k => .error k,
         [⟨(data.take 128).length + footer.length, dnsReplyByte footer data, addr⟩])
    else none

/-- Holds (`true`) exactly when the call returned `Ok(())` without handing any
datagram to `send_to`. -/
def okNoSend : Option (Except IoKind Unit × List Datagram) → Bool
  | some (.ok _, msgs) => msgs.isEmpty
  | _ => false

/-- Holds (`true`) exactly when the call returned an `Err`. -/
def returnsError : Option (Except IoKind Unit × List Datagram) → Bool
  | some (.error _, _) => true
  | _ => false

/-- The error classification the claim attributes to `handle_requests`: a
receive failure whose kind is not `TimedOut`. -/
def recvFailedNonTimeout : RecvResult → Bool
  | .err (.other _) => true
  | _ => false

/-- A minimally well-formed DNS query: a full 12-byte header whose
answer-count field (bytes 6 and 7) is zero. -/
def wellFormedQuery (data : List Nat) : Prop :=
  12 ≤ data.length ∧ data.getD 6 0 = 0 ∧ data.getD 7 0 = 0

instance (data : List Nat) : Decidable (wellFormedQuery data) := by
  unfold wellFormedQuery
  infer_instance

/-! ## Captive portal set-config handler (src/server/captive_portal.rs)

The handler closure registered for `POST /set_config`.  The HTTP connection
is abstracted to the declared `Content-Length` header and the byte stream the
connection can deliver; `serde_json::from_slice::<WifiCredentials>` is an
external collaborator and appears as the `parse` parameter. -/

/-- The response bodies the handler can produce: the literal texts
`"Request too big"`, `"SSID = {} and PASSWORD = {}"` and `"JSON error"`. -/
inductive RespBody where
  | requestTooBig
  | confirmation (ssid password : List Nat)
  | jsonError
deriving DecidableEq, Repr

structure HttpResponse where
  status : Nat
  body : RespBody
deriving DecidableEq, Repr

/-- A `POST /set_config` request: declared content length (`None` when the
header is missing) and the bytes the connection delivers. -/
structure SetConfigRequest where
  contentLen : Option Nat
  body : List Nat
deriving DecidableEq, Repr

/-- Observable outcome of one handler run: the HTTP response, the mailbox
(`WIFI_CREDENTIALS`) contents afterwards, and whether the body was read. -/
structure SetConfigResult where
  response : HttpResponse
  mailbox : Option WifiCredentials
  bodyRead : Bool
deriving DecidableEq, Repr

/-- Constant `MAX_LEN` (src/server/captive_portal.rs:16). -/
def MAX_LEN : Nat := 128

/-- Semantics of the `as usize` cast on the 32-bit ESP32 target: the u64
returned by `content_len()` is truncated to 32 bits. -/
def usize32 (n : Nat) : Nat :=
  n % 4294967296

/-- The `/set_config` handler (src/server/captive_portal.rs:79-107).

Source line 80 computes `req.content_len().unwrap_or(0) as usize`: the
declared length is a u64 parsed from the Content-Length header, truncated by
the cast to the 32-bit usize of the target before every use.  Argument
`mailbox` is the `WIFI_CREDENTIALS` slot before the request.  `none` models a
panic: `read_exact(..).expect(..)` fails when the connection delivers fewer
bytes than the declared length. -/
def set_config_handler (parse : List Nat → Option WifiCredentials)
    (req : SetConfigRequest) (mailbox : Option WifiCredentials) :
    Option SetConfigResult :=
  if usize32 (req.contentLen.getD 0) > MAX_LEN then
    some ⟨⟨413, .requestTooBig⟩, mailbox, false⟩
  else if req.body.length < usize32 (req.contentLen.getD 0) then
    none
  else
    match parse (req.body.take (usize32 (req.contentLen.getD 0))) with
    | some form => some ⟨⟨200, .confirmation form.ssid form.password⟩, some form, true⟩
    | none => some ⟨⟨200, .jsonError⟩, mailbox, true⟩

/-- A concrete stand-in for `serde_json::from_slice`, mapping two distinct
one-byte bodies to two distinct credential values. -/
def sampleParse : List Nat → Option WifiCredentials :=
  fun l =>
    if l = [0] then some ⟨[65], [66]⟩
    else if l = [1] then some ⟨[67], [68]⟩
    else none

/-! ## Station connect and boot decision
(src/wifi/station.rs, src/main.rs)

Routine `connect_wifi_or_restart` interacts with the `BlockingWifi` driver through
`start`, `connect`, `stop`, `wait_netif_up`, and a loop over `is_connected` /
`get_configuration`.  Each of those outcomes is an input of the model; the
store is threaded explicitly since the connect-failure arm deletes the
credentials. -/

/-- One iteration of the `while !wifi.is_connected()?` loop: the
`is_connected` call errors, returns `true`, or returns `false` followed by a
`get_configuration` call that succeeds or errors. -/
inductive StepRes where
  | connErr
  | connTrue
  | connFalseCfgOk
  | connFalseCfgErr
deriving DecidableEq, Repr

/-- How a run of `connect_wifi_or_restart` ends: returns `Ok(())`, returns an
`Err`, reboots the device via `esp_restart` (which never returns), or loops
forever waiting for the connection. -/
inductive RunOutcome where
  | normal
  | errReturn
  | reboot
  | hangs
deriving DecidableEq, Repr

structure StationRun where
  outcome : RunOutcome
  store : Store
  deletedCreds : Bool
  stationStopped : Bool
deriving Repr

/-- The `while !wifi.is_connected()?` loop (src/wifi/station.rs:158-161) over
a finite trace of iteration outcomes; an exhausted trace means the loop never
observed `true` and spins forever. -/
def waitConnLoop : List StepRes → RunOutcome
  | [] => .hangs
  | .connErr :: _ => .errReturn
  | .connTrue :: _ => .normal
  | .connFalseCfgErr :: _ => .errReturn
  | .connFalseCfgOk :: rest => waitConnLoop rest

/-- Model of `connect_wifi_or_restart` (src/wifi/station.rs:136-165).

On `wifi.connect()` failure it deletes the stored credentials (via
`nvs::wifi::delete_wifi_credentials`, whose driver health is `nvsOk`), then
`wifi.stop()?` and `esp_restart()`.  A `stop` failure propagates as `Err`
before the restart is reached. -/
def connect_wifi_or_restart (startRes connectRes stopRes netifRes : Except Unit Unit)
    (nvsOk : Bool) (steps : List StepRes) (s : Store) : StationRun :=
  match startRes with
  | .error _ => ⟨.errReturn, s, false, false⟩
  | .ok _ =>
    match connectRes with
    | .error _ =>
      let s1 := (delete_wifi_credentials nvsOk s).2
      match stopRes with
      | .ok _ => ⟨.reboot, s1, true, true⟩
      | .error _ => ⟨.errReturn, s1, true, false⟩
    | .ok _ =>
      match netifRes with
      | .error _ => ⟨.errReturn, s, false, false⟩
      | .ok _ => ⟨waitConnLoop steps, s, false, false⟩

/-- How a device boots: AP bootstrap or station mode (src/main.rs:56-102). -/
inductive BootMode where
  | apBootstrap
  | station (c : WifiCredentials)
deriving DecidableEq, Repr

/-- The boot decision of `main` (src/main.rs:56-102): unwrap the stored
credentials lookup (`none` = panic), then AP bootstrap when absent, station
mode when present. -/
def boot_mode (s : Store) : Option BootMode :=
  match get_maybe_wifi_credentials s with
  | .error _ => none
  | .ok none => some .apBootstrap
  | .ok (some c) => some (.station c)

/-! ## Auxiliary lemmas -/

theorem encodeVarint_small {n : Nat} (h : n < 128) : encodeVarint n = [n] := by
  rw [encodeVarint]
  simp [h]

theorem encodeCred_length_small {ssid password : List Nat}
    (hs : ssid.length < 128) (hp : password.length < 128) :
    (encodeCred ⟨ssid, password⟩).length = ssid.length + password.length + 2 := by
  simp [encodeCred, encodeVarint_small hs, encodeVarint_small hp]
  omega

theorem from_bytes_encodeCred (c : WifiCredentials) :
    from_bytes (encodeCred c) = some c := by
  have h := decodeCred_encodeCred c []
  rw [List.append_nil] at h
  simp [from_bytes, h]

theorem length_take128 {data : List Nat} (h : data.length ≤ 128) :
    (data.take 128).length = data.length := by
  simp [List.length_take, Nat.min_eq_right h]

theorem getD_take128 (data : List Nat) (i : Nat) (h : i < 128) :
    (data.take 128).getD i 0 = data.getD i 0 := by
  simp [List.getD_eq_getElem?_getD, List.getElem?_take_of_lt h]

theorem usize32_small {n : Nat} (h : n < 4294967296) : usize32 n = n :=
  Nat.mod_eq_of_lt h

/-- A 19-byte standard DNS query (ID 0x1234, RD set, one question for the
name "a", type A, class IN), used as a concrete test packet. -/
def sampleQuery : List Nat :=
  [0x12, 0x34, 0x01, 0x00, 0x00, 0x01, 0x00, 0x00, 0x00, 0x00, 0x00, 0x00,
   0x01, 0x61, 0x00, 0x00, 0x01, 0x00, 0x01]

/-! ## Claim theorems -/

/-- C7: for every `{ssid, password}` pair whose fields are within the fixed
maximum length supported by the store (together at most 98 bytes, so the
postcard encoding fits the store's 100-byte vector and read buffer),
`save_wifi_credentials` followed by `get_maybe_wifi_credentials` on the same
store returns `Ok(Some(c))` with `c` equal to the saved pair. -/
theorem save_load_roundtrip (s : Store) (ssid password : List Nat)
    (hlen : ssid.length + password.length ≤ 98) :
    ∃ s2, save_wifi_credentials true s ssid password = some s2 ∧
      get_maybe_wifi_credentials s2 = .ok (some ⟨ssid, password⟩) := by
  have hs : ssid.length < 128 := by omega
  have hp : password.length < 128 := by omega
  have hfit : (encodeCred ⟨ssid, password⟩).length ≤ 100 := by
    rw [encodeCred_length_small hs hp]
    omega
  refine ⟨setRaw s "net_info" (encodeCred ⟨ssid, password⟩), ?_, ?_⟩
  · simp [save_wifi_credentials, to_vec100, hfit]
  · rw [get_maybe_wifi_credentials, get_raw_buf, getRaw_setRaw]
    simp only [hfit, if_true]
    rw [from_bytes_encodeCred]

theorem save_load_roundtrip_witness :
    ([104, 111, 109, 101].length + [115, 51, 99, 114, 51, 116].length ≤ 98) ∧
    ∃ s2, save_wifi_credentials true [] [104, 111, 109, 101] [115, 51, 99, 114, 51, 116]
        = some s2 ∧
      get_maybe_wifi_credentials s2
        = .ok (some ⟨[104, 111, 109, 101], [115, 51, 99, 114, 51, 116]⟩) :=
  ⟨by decide,
   save_load_roundtrip [] [104, 111, 109, 101] [115, 51, 99, 114, 51, 116] (by decide)⟩

/-- C8: `delete_wifi_credentials` reports success to the caller for every
store state and every driver health (both arms of the driver result are
swallowed after logging), removing a non-existent entry included, and deleting
twice produces the same store as deleting once. -/
theorem delete_idempotent_no_error (driverOk : Bool) (s : Store) :
    (delete_wifi_credentials driverOk s).1 = .ok () ∧
    (delete_wifi_credentials driverOk (delete_wifi_credentials driverOk s).2).2 =
      (delete_wifi_credentials driverOk s).2 ∧
    getRaw (delete_wifi_credentials true s).2 "net_info" = none := by
  cases driverOk <;>
    simp [delete_wifi_credentials, esp_remove, removeKey_removeKey, getRaw_removeKey]

/-- C9: `save_wifi_credentials` returns normally (for either outcome of the
underlying write, which is only logged) exactly when the postcard encoding of
the credentials fits the 100-byte vector given to `to_vec`; when the encoding
exceeds 100 bytes the `unwrap` panics instead. -/
theorem save_returns_iff_fits (writeOk : Bool) (s : Store) (ssid password : List Nat) :
    (save_wifi_credentials writeOk s ssid password).isSome = true ↔
      (encodeCred ⟨ssid, password⟩).length ≤ 100 := by
  by_cases h : (encodeCred ⟨ssid, password⟩).length ≤ 100 <;>
    simp [save_wifi_credentials, to_vec100, h]

/-- C3 (counterexample): a `POST /set_config` declaring content length
2^32 + 1 — which exceeds 128 bytes — is not rejected: the `as usize` cast at
src/server/captive_portal.rs:80 truncates it to 1 on the 32-bit target, so
the handler reads the body, parses it, fills the mailbox and answers 200,
falsifying the claim as stated at this input. -/
theorem oversized_wrap_counterexample :
    set_config_handler sampleParse ⟨some 4294967297, [0]⟩ none =
      some ⟨⟨200, .confirmation [65] [66]⟩, some ⟨[65], [66]⟩, true⟩ := by
  decide

/-- C3 (amended): a `POST /set_config` whose declared content length, after
the cast to the target's 32-bit usize (reduction mod 2^32), exceeds 128 bytes
receives HTTP 413 with the "Request too big" body, never reads the request
body, leaves the mailbox unchanged, and performs no further action. -/
theorem oversized_post_rejected (parse : List Nat → Option WifiCredentials)
    (req : SetConfigRequest) (mailbox : Option WifiCredentials) (L : Nat)
    (hdecl : req.contentLen = some L) (hbig : 128 < usize32 L) :
    set_config_handler parse req mailbox =
      some ⟨⟨413, .requestTooBig⟩, mailbox, false⟩ := by
  rw [set_config_handler]
  simp only [hdecl, Option.getD_some]
  rw [if_pos (by simp only [MAX_LEN]; exact hbig)]

theorem oversized_post_rejected_witness :
    ((⟨some 200, []⟩ : SetConfigRequest).contentLen = some 200 ∧
      128 < usize32 200) ∧
    set_config_handler (fun _ => none) ⟨some 200, []⟩ none =
      some ⟨⟨413, .requestTooBig⟩, none, false⟩ :=
  ⟨⟨rfl, by decide⟩,
   oversized_post_rejected (fun _ => none) ⟨some 200, []⟩ none 200 rfl (by decide)⟩

/-- C4: a `POST /set_config` within the 128-byte bound whose delivered body
does not parse as `{ssid, password}` JSON leaves the mailbox unchanged and is
answered with HTTP 200 carrying the "JSON error" text body. -/
theorem malformed_json_leaves_mailbox (parse : List Nat → Option WifiCredentials)
    (req : SetConfigRequest) (mailbox : Option WifiCredentials)
    (hlen : req.contentLen.getD 0 ≤ 128)
    (hbody : req.contentLen.getD 0 ≤ req.body.length)
    (hparse : parse (req.body.take (req.contentLen.getD 0)) = none) :
    set_config_handler parse req mailbox = some ⟨⟨200, .jsonError⟩, mailbox, true⟩ := by
  rw [set_config_handler,
    usize32_small (show req.contentLen.getD 0 < 4294967296 by omega)]
  rw [if_neg (by simp only [MAX_LEN]; omega), if_neg (by omega), hparse]

theorem malformed_json_leaves_mailbox_witness :
    ((⟨some 2, [123, 125, 9]⟩ : SetConfigRequest).contentLen.getD 0 ≤ 128 ∧
     (⟨some 2, [123, 125, 9]⟩ : SetConfigRequest).contentLen.getD 0 ≤
       (⟨some 2, [123, 125, 9]⟩ : SetConfigRequest).body.length ∧
     (fun (_ : List Nat) => (none : Option WifiCredentials))
       ((⟨some 2, [123, 125, 9]⟩ : SetConfigRequest).body.take
         ((⟨some 2, [123, 125, 9]⟩ : SetConfigRequest).contentLen.getD 0)) = none) ∧
    set_config_handler (fun _ => none) ⟨some 2, [123, 125, 9]⟩ (some ⟨[1], [2]⟩) =
      some ⟨⟨200, .jsonError⟩, some ⟨[1], [2]⟩, true⟩ :=
  ⟨by decide,
   malformed_json_leaves_mailbox (fun _ => none) ⟨some 2, [123, 125, 9]⟩
     (some ⟨[1], [2]⟩) (by decide) (by decide) (by decide)⟩

/-- C6: two successful `/set_config` submissions before any consumption leave
the mailbox holding exactly the second value, for any prior mailbox contents:
the handler overwrites the single slot, no queueing. -/
theorem mailbox_last_write_wins (parse : List Nat → Option WifiCredentials)
    (reqA reqB : SetConfigRequest) (m : Option WifiCredentials)
    (a b : WifiCredentials)
    (hA1 : reqA.contentLen.getD 0 ≤ 128)
    (hA2 : reqA.contentLen.getD 0 ≤ reqA.body.length)
    (hA3 : parse (reqA.body.take (reqA.contentLen.getD 0)) = some a)
    (hB1 : reqB.contentLen.getD 0 ≤ 128)
    (hB2 : reqB.contentLen.getD 0 ≤ reqB.body.length)
    (hB3 : parse (reqB.body.take (reqB.contentLen.getD 0)) = some b) :
    ∃ r1 r2, set_config_handler parse reqA m = some r1 ∧ r1.mailbox = some a ∧
      set_config_handler parse reqB r1.mailbox = some r2 ∧ r2.mailbox = some b := by
  refine ⟨⟨⟨200, .confirmation a.ssid a.password⟩, some a, true⟩,
    ⟨⟨200, .confirmation b.ssid b.password⟩, some b, true⟩, ?_, rfl, ?_, rfl⟩
  · rw [set_config_handler,
      usize32_small (show reqA.contentLen.getD 0 < 4294967296 by omega)]
    rw [if_neg (by simp only [MAX_LEN]; omega), if_neg (by omega), hA3]
  · rw [set_config_handler,
      usize32_small (show reqB.contentLen.getD 0 < 4294967296 by omega)]
    rw [if_neg (by simp only [MAX_LEN]; omega), if_neg (by omega), hB3]

theorem mailbox_last_write_wins_witness :
    ((⟨some 1, [0]⟩ : SetConfigRequest).contentLen.getD 0 ≤ 128 ∧
     (⟨some 1, [0]⟩ : SetConfigRequest).contentLen.getD 0 ≤
       (⟨some 1, [0]⟩ : SetConfigRequest).body.length ∧
     sampleParse ((⟨some 1, [0]⟩ : SetConfigRequest).body.take
       ((⟨some 1, [0]⟩ : SetConfigRequest).contentLen.getD 0)) = some ⟨[65], [66]⟩ ∧
     (⟨some 1, [1]⟩ : SetConfigRequest).contentLen.getD 0 ≤ 128 ∧
     (⟨some 1, [1]⟩ : SetConfigRequest).contentLen.getD 0 ≤
       (⟨some 1, [1]⟩ : SetConfigRequest).body.length ∧
     sampleParse ((⟨some 1, [1]⟩ : SetConfigRequest).body.take
       ((⟨some 1, [1]⟩ : SetConfigRequest).contentLen.getD 0)) = some ⟨[67], [68]⟩) ∧
    ∃ r1 r2, set_config_handler sampleParse ⟨some 1, [0]⟩ none = some r1 ∧
      r1.mailbox = some ⟨[65], [66]⟩ ∧
      set_config_handler sampleParse ⟨some 1, [1]⟩ r1.mailbox = some r2 ∧
      r2.mailbox = some ⟨[67], [68]⟩ :=
  ⟨by decide,
   mailbox_last_write_wins sampleParse ⟨some 1, [0]⟩ ⟨some 1, [1]⟩ none
     ⟨[65], [66]⟩ ⟨[67], [68]⟩ (by decide) (by decide) (by decide)
     (by decide) (by decide) (by decide)⟩

/-- C1: for every well-formed DNS query whose reported length is at most 100
bytes, `handle_requests` hands exactly one reply datagram to `send_to`,
addressed to the querier, in which the response flag (bit 7 of header byte 2)
and the flag the spec calls authoritative-answer (bit 7 of header byte 3) are
set, the answer-count field (bytes 6-7) equals 1, the query section (bytes 12
up to the received length) is byte-for-byte the received query, and the
16-byte footer appended after it ends with the 4 octets of the bound IP. -/
theorem dns_universal_answer (o0 o1 o2 o3 addr : Nat) (data : List Nat)
    (sendRes : Except IoKind Unit)
    (hwf : wellFormedQuery data) (hlen : data.length ≤ 100) :
    ∃ res msg,
      handle_requests (response_footer o0 o1 o2 o3) (.ok data addr) sendRes
        = some (res, [msg]) ∧
      msg.dest = addr ∧
      msg.len = data.length + 16 ∧
      Nat.testBit (msg.byte 2) 7 = true ∧
      Nat.testBit (msg.byte 3) 7 = true ∧
      msg.byte 6 * 256 + msg.byte 7 = 1 ∧
      (∀ i, 12 ≤ i → i < data.length → msg.byte i = data.getD i 0) ∧
      msg.byte (data.length + 12) = o0 ∧ msg.byte (data.length + 13) = o1 ∧
      msg.byte (data.length + 14) = o2 ∧ msg.byte (data.length + 15) = o3 := by
  obtain ⟨hhdr, h6, _h7⟩ := hwf
  have h128 : data.length ≤ 128 := by omega
  have hL : (data.take 128).length = data.length := length_take128 h128
  have hfoot : (response_footer o0 o1 o2 o3).length = 16 := by
    rw [response_footer_eq]
    rfl
  refine ⟨(match sendRes with | .ok _ => .ok () | .error k => .error k),
    ⟨(data.take 128).length + (response_footer o0 o1 o2 o3).length,
      dnsReplyByte (response_footer o0 o1 o2 o3) data, addr⟩, ?_, rfl, ?_,
    ?_, ?_, ?_, ?_, ?_, ?_, ?_, ?_⟩
  · simp only [handle_requests]
    rw [hL, hfoot, if_neg (by omega), if_pos (by omega)]
  · show (data.take 128).length + (response_footer o0 o1 o2 o3).length = _
    omega
  · show Nat.testBit (dnsReplyByte _ data 2) 7 = true
    rw [dnsReplyByte, if_neg (by omega), dnsHeaderPatched]
    rw [if_neg (by omega), if_pos rfl, Nat.testBit_lor,
      show Nat.testBit 128 7 = true from by decide, Bool.or_true]
  · show Nat.testBit (dnsReplyByte _ data 3) 7 = true
    rw [dnsReplyByte, if_neg (by omega), dnsHeaderPatched]
    rw [if_neg (by omega), if_neg (by omega), if_pos rfl, Nat.testBit_lor,
      show Nat.testBit 128 7 = true from by decide, Bool.or_true]
  · show dnsReplyByte _ data 6 * 256 + dnsReplyByte _ data 7 = 1
    rw [dnsReplyByte, if_neg (by omega), dnsHeaderPatched,
      if_neg (by omega), if_neg (by omega), if_neg (by omega),
      dnsReplyByte, if_neg (by omega), dnsHeaderPatched, if_pos rfl]
    rw [recvBuffer, getD_take128 data 6 (by omega), h6]
  · intro i h12 hiL
    show dnsReplyByte _ data i = data.getD i 0
    rw [dnsReplyByte, if_neg (by omega), dnsHeaderPatched,
      if_neg (by omega), if_neg (by omega), if_neg (by omega)]
    exact getD_take128 data i (by omega)
  · show dnsReplyByte _ data (data.length + 12) = o0
    rw [dnsReplyByte, if_pos (by omega), response_footer_eq, hL,
      show data.length + 12 - data.length = 12 by omega]
    rfl
  · show dnsReplyByte _ data (data.length + 13) = o1
    rw [dnsReplyByte, if_pos (by omega), response_footer_eq, hL,
      show data.length + 13 - data.length = 13 by omega]
    rfl
  · show dnsReplyByte _ data (data.length + 14) = o2
    rw [dnsReplyByte, if_pos (by omega), response_footer_eq, hL,
      show data.length + 14 - data.length = 14 by omega]
    rfl
  · show dnsReplyByte _ data (data.length + 15) = o3
    rw [dnsReplyByte, if_pos (by omega), response_footer_eq, hL,
      show data.length + 15 - data.length = 15 by omega]
    rfl

theorem dns_universal_answer_witness :
    (wellFormedQuery sampleQuery ∧ sampleQuery.length ≤ 100) ∧
    ∃ res msg,
      handle_requests (response_footer 192 168 71 1) (.ok sampleQuery 55) (.ok ())
        = some (res, [msg]) ∧
      msg.dest = 55 ∧
      msg.len = sampleQuery.length + 16 ∧
      Nat.testBit (msg.byte 2) 7 = true ∧
      Nat.testBit (msg.byte 3) 7 = true ∧
      msg.byte 6 * 256 + msg.byte 7 = 1 ∧
      (∀ i, 12 ≤ i → i < sampleQuery.length → msg.byte i = sampleQuery.getD i 0) ∧
      msg.byte (sampleQuery.length + 12) = 192 ∧
      msg.byte (sampleQuery.length + 13) = 168 ∧
      msg.byte (sampleQuery.length + 14) = 71 ∧
      msg.byte (sampleQuery.length + 15) = 1 :=
  ⟨⟨by decide, by decide⟩,
   dns_universal_answer 192 168 71 1 55 sampleQuery (.ok ()) (by decide) (by decide)⟩

/-- C10: for every packet accepted for reply (reported length at most 100
bytes), the reply path of `handle_requests` does not panic: the run produces
a result (`some`), and every datagram handed to `send_to` has total length
reported-length + 16, at most 116, within the 128-byte buffer. -/
theorem dns_reply_in_bounds (o0 o1 o2 o3 addr : Nat) (data : List Nat)
    (sendRes : Except IoKind Unit)
    (hlen : (data.take 128).length ≤ 100) :
    ∃ res msgs,
      handle_requests (response_footer o0 o1 o2 o3) (.ok data addr) sendRes
        = some (res, msgs) ∧
      ∀ msg ∈ msgs, msg.len = (data.take 128).length + 16 ∧ msg.len ≤ 116 := by
  have hfoot : (response_footer o0 o1 o2 o3).length = 16 := by
    rw [response_footer_eq]
    rfl
  refine ⟨(match sendRes with | .ok _ => .ok () | .error k => .error k),
    [⟨(data.take 128).length + (response_footer o0 o1 o2 o3).length,
      dnsReplyByte (response_footer o0 o1 o2 o3) data, addr⟩], ?_, ?_⟩
  · simp only [handle_requests]
    rw [hfoot, if_neg (by omega), if_pos (by omega)]
  · intro msg hm
    rw [List.mem_singleton] at hm
    subst hm
    refine ⟨?_, ?_⟩
    · show (data.take 128).length + (response_footer o0 o1 o2 o3).length = _
      rw [hfoot]
    · show (data.take 128).length + (response_footer o0 o1 o2 o3).length ≤ 116
      rw [hfoot]
      omega

theorem dns_reply_in_bounds_witness :
    ((sampleQuery.take 128).length ≤ 100) ∧
    ∃ res msgs,
      handle_requests (response_footer 192 168 71 1) (.ok sampleQuery 55) (.ok ())
        = some (res, msgs) ∧
      ∀ msg ∈ msgs, msg.len = (sampleQuery.take 128).length + 16 ∧ msg.len ≤ 116 :=
  ⟨by decide, dns_reply_in_bounds 192 168 71 1 55 sampleQuery (.ok ()) (by decide)⟩

/-- C5 (amended): `handle_requests` returns `Ok(())` without handing a
datagram to `send_to` in exactly two cases — receive timeout, or reported
length above 100 — and it returns an `Err` exactly when either the receive
fails with a kind other than `TimedOut`, or a reply was attempted (reported
length at most 100) and the send itself failed, with any error kind. -/
theorem dns_result_classification (o0 o1 o2 o3 : Nat) (recv : RecvResult)
    (sendRes : Except IoKind Unit) :
    (okNoSend (handle_requests (response_footer o0 o1 o2 o3) recv sendRes) = true ↔
      (recv = .err .timedOut ∨
        ∃ d a, recv = .ok d a ∧ 100 < (d.take 128).length)) ∧
    (returnsError (handle_requests (response_footer o0 o1 o2 o3) recv sendRes) = true ↔
      ((∃ c, recv = .err (.other c)) ∨
        (∃ d a, recv = .ok d a ∧ (d.take 128).length ≤ 100 ∧
          ∃ k, sendRes = .error k))) := by
  have hfoot : (response_footer o0 o1 o2 o3).length = 16 := by
    rw [response_footer_eq]
    rfl
  cases recv with
  | err k =>
    cases k with
    | timedOut =>
      constructor
      · exact iff_of_true (by simp [handle_requests, okNoSend]) (Or.inl rfl)
      · refine iff_of_false (by simp [handle_requests, returnsError]) ?_
        rintro (⟨c, hc⟩ | ⟨d, a, hda, _⟩)
        · cases hc
        · cases hda
    | other c =>
      constructor
      · refine iff_of_false (by simp [handle_requests, okNoSend]) ?_
        rintro (h | ⟨d, a, hda, _⟩)
        · cases h
        · cases hda
      · exact iff_of_true (by simp [handle_requests, returnsError])
          (Or.inl ⟨c, rfl⟩)
  | ok data addr =>
    by_cases hbig : 100 < (data.take 128).length
    · have hdrop : handle_requests (response_footer o0 o1 o2 o3) (.ok data addr)
          sendRes = some (.ok (), []) := by
        simp only [handle_requests]
        rw [if_pos hbig]
      rw [hdrop]
      constructor
      · exact iff_of_true (by simp [okNoSend]) (Or.inr ⟨data, addr, rfl, hbig⟩)
      · refine iff_of_false (by simp [returnsError]) ?_
        rintro (⟨c, hc⟩ | ⟨d, a, hda, hle2, _⟩)
        · cases hc
        · cases hda
          omega
    · have hreply : handle_requests (response_footer o0 o1 o2 o3) (.ok data addr)
          sendRes =
            some (match sendRes with | .ok _ => .ok () | .error k => .error k,
              [⟨(data.take 128).length + (response_footer o0 o1 o2 o3).length,
                dnsReplyByte (response_footer o0 o1 o2 o3) data, addr⟩]) := by
        simp only [handle_requests]
        rw [if_neg hbig, if_pos (by rw [hfoot]; omega)]
      rw [hreply]
      cases sendRes with
      | ok u =>
        constructor
        · refine iff_of_false (by simp [okNoSend]) ?_
          rintro (h | ⟨d, a, hda, hgt⟩)
          · cases h
          · cases hda
            omega
        · refine iff_of_false (by simp [returnsError]) ?_
          rintro (⟨c, hc⟩ | ⟨d, a, hda, hle2, k, hk⟩)
          · cases hc
          · cases hk
      | error k =>
        constructor
        · refine iff_of_false (by simp [okNoSend]) ?_
          rintro (h | ⟨d, a, hda, hgt⟩)
          · cases h
          · cases hda
            omega
        · exact iff_of_true (by simp [returnsError])
            (Or.inr ⟨data, addr, rfl, by omega, k, rfl⟩)

/-- C5 (counterexample): with a 12-byte query received successfully and the
socket send failing with kind `TimedOut`, `handle_requests` returns an error
although the receive did not fail with a non-`TimedOut` kind — so "returns an
error if and only if the socket receive fails with a kind other than
TimedOut" is false at this input. -/
theorem dns_error_claim_counterexample :
    ¬ (returnsError
        (handle_requests (response_footer 192 168 71 1)
          (RecvResult.ok (List.replicate 12 0) 0) (Except.error IoKind.timedOut))
        = recvFailedNonTimeout (RecvResult.ok (List.replicate 12 0) 0)) := by
  decide

/-- C2: whenever the station start succeeds and the connect attempt fails
(and the NVS driver accepts the remove), `connect_wifi_or_restart` deletes
the stored credentials and never returns normally; it reaches the reboot only
after the delete ran and the station handle was stopped, the resulting store
holds no credentials, and the next boot therefore decides for AP bootstrap. -/
theorem connect_failure_clears_credentials
    (startRes connectRes stopRes netifRes : Except Unit Unit)
    (steps : List StepRes) (s : Store)
    (hstart : startRes = .ok ()) (hconn : connectRes = .error ()) :
    ∃ r, connect_wifi_or_restart startRes connectRes stopRes netifRes true steps s = r ∧
      r.outcome ≠ .normal ∧
      (r.outcome = .reboot → r.deletedCreds = true ∧ r.stationStopped = true) ∧
      r.deletedCreds = true ∧
      getRaw r.store "net_info" = none ∧
      boot_mode r.store = some .apBootstrap := by
  subst hstart hconn
  have hget : getRaw (removeKey s "net_info") "net_info" = none :=
    getRaw_removeKey s "net_info"
  cases stopRes with
  | ok u =>
    refine ⟨_, rfl, ?_⟩
    simp [connect_wifi_or_restart, delete_wifi_credentials, esp_remove,
      boot_mode, get_maybe_wifi_credentials, get_raw_buf, hget]
  | error e =>
    refine ⟨_, rfl, ?_⟩
    simp [connect_wifi_or_restart, delete_wifi_credentials, esp_remove,
      boot_mode, get_maybe_wifi_credentials, get_raw_buf, hget]

theorem connect_failure_clears_credentials_witness :
    ((Except.ok () : Except Unit Unit) = .ok () ∧
     (Except.error () : Except Unit Unit) = .error ()) ∧
    ∃ r, connect_wifi_or_restart (.ok ()) (.error ()) (.ok ()) (.ok ()) true []
        [("net_info", [4, 72, 111, 109, 101])] = r ∧
      r.outcome ≠ .normal ∧
      (r.outcome = .reboot → r.deletedCreds = true ∧ r.stationStopped = true) ∧
      r.deletedCreds = true ∧
      getRaw r.store "net_info" = none ∧
      boot_mode r.store = some .apBootstrap :=
  ⟨⟨rfl, rfl⟩,
   connect_failure_clears_credentials (.ok ()) (.error ()) (.ok ()) (.ok ()) []
     [("net_info", [4, 72, 111, 109, 101])] rfl rfl⟩

end EspClock
